import Mathlib

/-!
Verification of the conversation-state and response-rendering pipeline of
`static/js/chat_logic.js` (a browser chat client).

The JavaScript source is shallowly embedded as pure Lean functions over an
explicit `ClientState` record.  Network calls are modelled by environment
records (`SendEnv`, `FetchEnv`, ...) that carry the outcome the remote
backend would produce; each operation returns the successor state together
with the list of HTTP requests it issued.  JavaScript exceptions inside a
`try` block are modelled with `Except`, where the `error` payload is the
state (and request trace) at the throw point, and the `catch` handler of
the source is applied to that payload.

Modelling conventions, noted once here:
* a JavaScript value that may be `undefined`/`null` is an `Option`;
* JavaScript string truthiness (`""` and `null`/`undefined` are falsy) is
  the function `truthy` below;
* `String.prototype.trim`, `startsWith` and first-occurrence `replace` are
  re-implemented structurally over `List Char` so that the kernel can
  evaluate them (`jsTrim`, `jsStartsWith`, `jsReplaceFirst`);
* DOM-only effects that no state or claim observes (typing indicator,
  send-button disabling, scroll position, CSS classes) are elided; the
  rendered chat pane is kept abstractly as a list of `DisplayedMsg`.
-/

/-- JavaScript truthiness of a nullable string: `null`/`undefined` and the
empty string are falsy. -/
def truthy : Option String → Bool
  | none => false
  | some s => s != ""

/-- Model of JS `String.prototype.trim`: removes leading and trailing
whitespace. Implemented over the character list so the kernel can reduce
it. -/
def jsTrim (s : String) : String :=
  ⟨((s.data.dropWhile Char.isWhitespace).reverse.dropWhile Char.isWhitespace).reverse⟩

/-- Model of JS `String.prototype.startsWith`. -/
def jsStartsWith (s p : String) : Bool :=
  p.data.isPrefixOf s.data

/-- Model of JS `String.prototype.replace` with a string pattern, which
replaces only the first occurrence.  Every call site in the source guards
it with `startsWith`, in which case the first occurrence is the leading
prefix; for a non-matching string we return it unchanged (the only shape
the guarded call sites can produce). -/
def jsReplaceFirst (s p : String) : String :=
  if jsStartsWith s p then ⟨s.data.drop p.data.length⟩ else s

/-- Model of the external `marked.parse` markdown renderer (a third-party
library, outside this repository); modelled as the identity on the markdown
text, which preserves exactly the information the claims depend on (equal
inputs render equally). -/
def marked_parse (s : String) : String := s

/-- Model of `escapeHtml` from the source: assigns `textContent` and reads
back `innerHTML`, which escapes the HTML metacharacters of a text node. -/
def escapeHtml (text : String) : String :=
  ((text.replace "&" "&amp;").replace "<" "&lt;").replace ">" "&gt;"

/-- Model of `window.location.origin` (`API_BASE_URL` in the source);
environment-dependent, kept as an abstract constant string. -/
def API_BASE_URL : String := "https://app.example"

/-- A tutorial step as produced by the backend (`{step_number, text, image?}`). -/
structure TutorialStep where
  step_number : Int
  text : String
  image : Option String
deriving DecidableEq, Repr

/-- The `clarified_step` object of a `tutorial_clarify` response. -/
structure ClarifiedStep where
  step_number : Option Int
  clarified : Option String
  image : Option String
deriving DecidableEq, Repr

/-- One feature card of a `capabilities` response. -/
structure Feature where
  icon : Option String
  title : Option String
  description : Option String
deriving DecidableEq, Repr

/-- The typed assistant payload (`data` in the source).  Every field is
optional because the backend JSON may omit it.  `steps` is `some` exactly
when the field is present and is an array (the `Array.isArray` check of the
source). -/
structure RespData where
  type : Option String := none
  content : Option String := none
  summary : Option String := none
  steps : Option (List TutorialStep) := none
  clarified_step : Option ClarifiedStep := none
  help_note : Option String := none
  pro_tip : Option String := none
  completion_message : Option String := none
  suggested_actions : Option (List String) := none
  title : Option String := none
  features : Option (List Feature) := none
  footer_cta : Option String := none
deriving DecidableEq, Repr

/-- An entry of `chatStateHistory` or of a server-returned history: either a
legacy string (`"User: ..."` / `"Assistant: ..."`), a structured object
`{role, content, data}`, or a malformed entry (modelling `null` and other
non-string non-object JSON values, all of which hydration skips). -/
inductive HistEntry where
  | str (s : String)
  | obj (role : Option String) (content : Option String) (data : Option RespData)
  | malformed
deriving DecidableEq, Repr

/-- The body of a successful `POST /chat` response: the typed payload plus
the optional `conversation_history` array. -/
structure ChatResponse where
  rdata : RespData
  conversation_history : Option (List HistEntry) := none
deriving DecidableEq, Repr

/-- One entry of the backend session list (`{session_id, title}`). -/
structure Session where
  session_id : String
  title : Option String
deriving DecidableEq, Repr

/-- One message as displayed in the chat pane: the role flag of the source
(`isUser`), the progressively revealed prose (`textToType`), and the
structured HTML appended after the prose (`complexHtml`). -/
structure DisplayedMsg where
  isUser : Bool
  prose : String
  complexHtml : String
deriving DecidableEq, Repr

/-- The mutable client state of the source file: the module-level variables
`currentSessionId`, `chatStateHistory`, `lastTutorialSteps`, `isFirstLoad`,
the per-tab store key `activeSessionId` (sessionStorage), the message input
field, and the rendered chat pane. -/
structure ClientState where
  currentSessionId : Option String
  activeSessionPointer : Option String
  chatStateHistory : List HistEntry
  lastTutorialSteps : List TutorialStep
  messageInput : String
  displayed : List DisplayedMsg
  isFirstLoad : Bool
deriving DecidableEq, Repr

/-- HTTP requests the client can issue, recorded as the trace of an
operation. -/
inductive Request where
  | listSessions
  | createSession
  | getSession (id : String)
  | chat (message : String) (session_id : Option String) (last_tutorial : List TutorialStep)
  | deleteSession (id : String)
  | renameSession (id : String) (title : String)
deriving DecidableEq, Repr

/-- Outcome of the `POST /chat` round-trip: the fetch rejects, the response
has a non-2xx status (`!response.ok`), the body fails to parse as JSON, or
a parsed body is returned. -/
inductive ChatOutcome where
  | netErr
  | httpErr (status : Nat)
  | badJson
  | ok (data : ChatResponse)
deriving DecidableEq, Repr

/-- Whether a chat outcome delivered a parsed body. -/
def ChatOutcome.isOkRes : ChatOutcome → Bool
  | .ok _ => true
  | _ => false

/-- Environment of one `sendMessage` call: the outcome of the lazy
`POST /sessions` creation (its parsed `session_id` on success) and the
outcome of the `POST /chat` call. -/
structure SendEnv where
  createResult : Except Unit String
  chatOutcome : ChatOutcome

/-- Outcome of the `GET /sessions/{id}` detail fetch inside
`selectSession`: network failure, non-2xx (the source throws
`"Failed to load session"`), JSON failure, or a body whose `history` field
may be absent. -/
inductive SelectOutcome where
  | netErr
  | httpErr
  | badJson
  | ok (history : Option (List HistEntry))
deriving DecidableEq, Repr

/-- Environment of one `fetchSessions` call: the `GET /sessions` outcome
(`data.sessions` may be absent from the parsed body), and the environment
used if the restoration path selects the stored session. -/
structure FetchEnv where
  listResult : Except Unit (Option (List Session))
  selectEnv : SelectOutcome

/-- Template-literal interpolation of a possibly-undefined number: JS
renders `undefined` as the string "undefined". -/
def jsShowNum (n : Option Int) : String :=
  match n with
  | some v => toString v
  | none => "undefined"

/-- Template-literal interpolation of a possibly-undefined string. -/
def jsShowStr (s : Option String) : String :=
  s.getD "undefined"

/-- Resolution of a step image URL (`renderTutorialResponse` and
`renderTutorialClarifyResponse` in the source): absolute URLs pass through,
anything else is prefixed with the API base. -/
def imageUrl (img : String) : String :=
  if jsStartsWith img "http" then img else API_BASE_URL ++ img

/-- `renderSuggestedActions` from the source: empty or absent action lists
render nothing. -/
def renderSuggestedActions (actions : Option (List String)) : String :=
  match actions with
  | none => ""
  | some l =>
    if l.length = 0 then ""
    else
      "<div class=\"suggested-actions\"><div class=\"suggested-actions-title\">Suggested Actions</div><div class=\"suggested-actions-list\">" ++
      String.join (l.map fun action =>
        "<button class=\"suggested-action-btn\" data-action=\"" ++ escapeHtml action ++
        "\">" ++ escapeHtml action ++ "</button>") ++
      "</div></div>"

/-- One step item of `renderTutorialResponse`. -/
def renderStep (step : TutorialStep) : String :=
  "<div class=\"step-item\"><div class=\"step-header\">" ++
  "<div class=\"step-number\">" ++ toString step.step_number ++ "</div>" ++
  "<div class=\"step-text\">" ++ marked_parse step.text ++ "</div>" ++
  "</div>" ++
  (if truthy step.image then
    "<img src=\"" ++ imageUrl (step.image.getD "") ++ "\" alt=\"Step " ++
    toString step.step_number ++ "\" class=\"step-image\" onerror=\"this.style.display=\x27none\x27\">"
   else "") ++
  "</div>"

/-- `renderTutorialResponse` from the source (the `content` field is typed
separately by the caller). -/
def renderTutorialResponse (data : RespData) : String :=
  "<div class=\"tutorial-content\">" ++
  (if truthy data.help_note then
    "<div class=\"help-note\">" ++ marked_parse (data.help_note.getD "") ++ "</div>"
   else "") ++
  (match data.steps with
   | some steps =>
     if steps.length > 0 then
       "<div class=\"steps-container\">" ++ String.join (steps.map renderStep) ++ "</div>"
     else ""
   | none => "") ++
  "<div class=\"completion-message\"><strong>Pro tip:</strong> " ++
  marked_parse (data.pro_tip.getD "") ++ "</div>" ++
  "<div class=\"completion-message\">" ++ marked_parse (data.completion_message.getD "") ++ "</div>" ++
  renderSuggestedActions data.suggested_actions ++
  "</div>"

/-- `renderTutorialClarifyResponse` from the source.  Reading
`cs.step_number` off an absent `clarified_step` raises a TypeError in JS;
that is the `error` case. -/
def renderTutorialClarifyResponse (data : RespData) : Except Unit String :=
  match data.clarified_step with
  | none => .error ()
  | some cs =>
    .ok ("<div class=\"tutorial-content\">" ++
      "<div class=\"step-item\"><div class=\"step-header\"><div class=\"step-number\">" ++
      jsShowNum cs.step_number ++ "</div><div class=\"step-text\">" ++
      marked_parse (cs.clarified.getD "") ++ "</div></div>" ++
      (if truthy cs.image then
        "<img src=\"" ++ imageUrl (cs.image.getD "") ++ "\" alt=\"Step " ++
        jsShowNum cs.step_number ++ "\" class=\"step-image\" onerror=\"this.style.display=\x27none\x27\">"
       else "") ++
      "</div>" ++
      renderSuggestedActions data.suggested_actions ++
      "</div>")

/-- One feature card of `renderCapabilitiesResponse`. -/
def renderFeature (feature : Feature) : String :=
  "<div class=\"capability-card\"><div class=\"capability-icon\">" ++
  jsShowStr feature.icon ++
  "</div><div class=\"capability-info\"><h3 class=\"capability-title\">" ++
  escapeHtml (feature.title.getD "") ++
  "</h3><p class=\"capability-description\">" ++
  escapeHtml (feature.description.getD "") ++ "</p></div></div>"

/-- `renderCapabilitiesResponse` from the source. -/
def renderCapabilitiesResponse (data : RespData) : String :=
  "<div class=\"capabilities-wrapper\"><div class=\"capabilities-container\"><div class=\"capabilities-header\"><h2 class=\"capabilities-title\">" ++
  escapeHtml (data.title.getD "") ++
  "</h2></div><div class=\"capabilities-grid\">" ++
  (match data.features with
   | some fs => if fs.length > 0 then String.join (fs.map renderFeature) else ""
   | none => "") ++
  "</div><div class=\"capabilities-footer\">" ++
  escapeHtml (data.footer_cta.getD "") ++ "</div>" ++
  renderSuggestedActions data.suggested_actions ++
  "</div></div>"

/-- `renderRegularResponse` from the source (also the fallback for
unrecognized response types). -/
def renderRegularResponse (data : RespData) : String :=
  (if truthy data.completion_message then
    "<div class=\"completion-message\">" ++ marked_parse (data.completion_message.getD "") ++ "</div>"
   else "") ++
  renderSuggestedActions data.suggested_actions

/-- The complex-content dispatch of `addMessage` for an assistant message
with a payload: the payload is copied with `content: null` and dispatched
on its `type` field. -/
def renderComplex (d : RespData) : Except Unit String :=
  let dr := { d with content := none }
  if d.type = some "tutorial" then .ok (renderTutorialResponse dr)
  else if d.type = some "tutorial_clarify" then renderTutorialClarifyResponse dr
  else if d.type = some "capabilities" then .ok (renderCapabilitiesResponse dr)
  else .ok (renderRegularResponse dr)

/-- A user message as displayed by `addMessage(text, true)`. -/
def userDisplayed (text : String) : DisplayedMsg :=
  ⟨true, text, ""⟩

/-- The generic error bubble appended by the catch handler of
`sendMessage`. -/
def errorDisplayed : DisplayedMsg :=
  ⟨false, "Sorry, something went wrong. Try again.", ""⟩

/-- `addMessage("", false, data)` for an assistant payload: the prose is
`data.content || ""`, the structured part comes from `renderComplex`.  The
message container is appended to the pane before the renderer runs, so if
the renderer throws, an empty assistant bubble remains (the `error`
payload). -/
def renderAssistant (d : RespData) : Except DisplayedMsg DisplayedMsg :=
  match renderComplex d with
  | .error _ => .error ⟨false, "", ""⟩
  | .ok c => .ok ⟨false, d.content.getD "", c⟩

/-- Tutorial-cache update of `sendMessage` (lines 676-679 of the source):
the cache is overwritten only when the reply type is `tutorial` and its
`steps` field is an array. -/
def updateTutorialCache (d : RespData) (cache : List TutorialStep) : List TutorialStep :=
  if d.type = some "tutorial" ∧ d.steps.isSome then d.steps.getD [] else cache

/-- Derivation of the assistant text pushed onto `chatStateHistory`
(lines 683-693 of the source). -/
def derivedAssistantText (d : RespData) : String :=
  jsTrim
    (if d.type = some "tutorial" then (d.content.getD "") ++ " " ++ (d.summary.getD "")
     else if d.type = some "tutorial_clarify" then
       match d.clarified_step with
       | some cs => cs.clarified.getD ""
       | none => d.content.getD ""
     else d.content.getD "")

/-- History reconciliation of `sendMessage` (lines 699-706 of the source):
a returned `conversation_history` array replaces the local history exactly
when its length is at least the local length; otherwise, and when no array
is returned, the local history is kept. -/
def reconcileWithServer (localHist : List HistEntry) (server : Option (List HistEntry)) : List HistEntry :=
  match server with
  | some h => if localHist.length ≤ h.length then h else localHist
  | none => localHist

/-- The optimistic phase of `sendMessage`: display the user message, push
`"User: ..."` onto the local history, clear the input field. -/
def optimisticAppend (message : String) (st : ClientState) : ClientState :=
  { st with displayed := st.displayed ++ [userDisplayed message],
            chatStateHistory := st.chatStateHistory ++ [HistEntry.str ("User: " ++ message)],
            messageInput := "" }

/-- Lazy session creation of `sendMessage` (lines 639-650 of the source):
when no truthy session id is held, `POST /sessions` is issued, and on
success its `session_id` becomes the active id and is persisted to the
per-tab store.  A rejected fetch or JSON failure is the thrown case. -/
def ensureSessionStep (res : Except Unit String) (st : ClientState) :
    Except (ClientState × List Request) (ClientState × List Request) :=
  if truthy st.currentSessionId then .ok (st, [])
  else
    match res with
    | .error _ => .error (st, [Request.createSession])
    | .ok sid =>
      .ok ({ st with currentSessionId := some sid, activeSessionPointer := some sid },
           [Request.createSession])

/-- The try block of `sendMessage` after the optimistic append: ensure a
session, issue the chat request, render the reply, update the tutorial
cache, push the derived assistant text, reconcile with the returned
history, and refresh the session list when the resulting history has at
most two entries. -/
def sendAttempt (env : SendEnv) (message : String) (st : ClientState) :
    Except (ClientState × List Request) (ClientState × List Request) :=
  match ensureSessionStep env.createResult st with
  | .error e => .error e
  | .ok (st1, reqs1) =>
    let reqs2 := reqs1 ++ [Request.chat message st1.currentSessionId st1.lastTutorialSteps]
    match env.chatOutcome with
    | .netErr => .error (st1, reqs2)
    | .httpErr _ => .error (st1, reqs2)
    | .badJson => .error (st1, reqs2)
    | .ok data =>
      match renderAssistant data.rdata with
      | .error stub => .error ({ st1 with displayed := st1.displayed ++ [stub] }, reqs2)
      | .ok dmsg =>
        let st2 := { st1 with displayed := st1.displayed ++ [dmsg] }
        let st3 := { st2 with lastTutorialSteps := updateTutorialCache data.rdata st2.lastTutorialSteps }
        let atext := derivedAssistantText data.rdata
        let st4 :=
          if atext = "" then st3
          else { st3 with chatStateHistory := st3.chatStateHistory ++ [HistEntry.str ("Assistant: " ++ atext)] }
        let st5 := { st4 with chatStateHistory := reconcileWithServer st4.chatStateHistory data.conversation_history }
        if st5.chatStateHistory.length ≤ 2 then .ok (st5, reqs2 ++ [Request.listSessions])
        else .ok (st5, reqs2)

/-- `sendMessage` from the source: guard on the trimmed input, optimistic
append, the try block above, and the catch handler that appends the
generic error bubble. -/
def sendMessage (env : SendEnv) (st : ClientState) : ClientState × List Request :=
  let message := jsTrim st.messageInput
  if message = "" then (st, [])
  else
    match sendAttempt env message (optimisticAppend message st) with
    | .ok r => r
    | .error r => ({ r.1 with displayed := r.1.displayed ++ [errorDisplayed] }, r.2)

/-- `newChat` from the source: clear the active id and its per-tab
pointer, empty the pane, the local history, the tutorial cache and the
input, and refresh the session list.  The nested `fetchSessions` call
resumes after `isFirstLoad` has been cleared, so it only refreshes the
sidebar; it is recorded as the `listSessions` request. -/
def newChat (st : ClientState) : ClientState × List Request :=
  ({ st with currentSessionId := none, activeSessionPointer := none,
             displayed := [], chatStateHistory := [], lastTutorialSteps := [],
             messageInput := "" },
   [Request.listSessions])

/-- Normalization of one server history entry during hydration
(`selectSession`, lines 178-194 of the source).  Legacy strings are parsed
by prefix test and first-occurrence replace; structured objects dispatch on
`role`, an assistant object rendering from `msg.data || {content: msg.content}`;
anything else is skipped (`ok none`).  The `error` case is a renderer
throw, carrying the stub bubble left in the pane. -/
def hydrateOne (msg : HistEntry) : Except DisplayedMsg (Option DisplayedMsg) :=
  match msg with
  | .str s =>
    if jsStartsWith s "User: " then
      .ok (some (userDisplayed (jsReplaceFirst s "User: ")))
    else if jsStartsWith s "Assistant: " then
      .ok (some ⟨false, jsReplaceFirst s "Assistant: ", ""⟩)
    else .ok none
  | .malformed => .ok none
  | .obj role content data =>
    if role = some "user" then .ok (some (userDisplayed (content.getD "")))
    else if role = some "assistant" then
      match renderAssistant (data.getD { content := content }) with
      | .error stub => .error stub
      | .ok m => .ok (some m)
    else .ok none

/-- Hydration of a whole server history: entries are rendered in order; a
renderer throw aborts the `forEach` (the outer catch logs it), leaving the
messages rendered so far plus the stub bubble of the throwing entry. -/
def hydrateAll : List HistEntry → List DisplayedMsg
  | [] => []
  | m :: rest =>
    match hydrateOne m with
    | .error stub => [stub]
    | .ok none => hydrateAll rest
    | .ok (some d) => d :: hydrateAll rest

/-- `selectSession` from the source: a no-op when the id is already
active; otherwise the id becomes active and is persisted, the sidebar is
refreshed, and the session detail is fetched.  On success the pane is
cleared and rebuilt from the returned history (`data.history || []`) and
the tutorial cache is reset; the three failure outcomes are caught and
logged, leaving the pane, history and cache untouched. -/
def selectSession (env : SelectOutcome) (sessionId : String) (st : ClientState) :
    ClientState × List Request :=
  if st.currentSessionId = some sessionId then (st, [])
  else
    let st1 := { st with currentSessionId := some sessionId,
                         activeSessionPointer := some sessionId }
    let reqs := [Request.listSessions, Request.getSession sessionId]
    match env with
    | .netErr => (st1, reqs)
    | .httpErr => (st1, reqs)
    | .badJson => (st1, reqs)
    | .ok history =>
      let hist := history.getD []
      ({ st1 with displayed := hydrateAll hist,
                  chatStateHistory := hist,
                  lastTutorialSteps := [] },
       reqs)

/-- `fetchSessions` from the source.  On the first load it restores the
per-tab active-session pointer: absent pointer enters landing state via
`newChat`; a pointer whose id is no longer in the fetched list is cleared
and falls back to `newChat`; a pointer whose id is found is selected.  A
missing `sessions` field makes the `some(...)` lookup throw, which the
catch swallows leaving `isFirstLoad` set.  After the first load the call
only refreshes the sidebar. -/
def fetchSessions (env : FetchEnv) (st : ClientState) : ClientState × List Request :=
  match env.listResult with
  | .error _ => (st, [Request.listSessions])
  | .ok sessions =>
    if st.isFirstLoad then
      match st.activeSessionPointer with
      | some aid =>
        match sessions with
        | none => (st, [Request.listSessions])
        | some l =>
          if l.any (fun s => s.session_id == aid) then
            let r := selectSession env.selectEnv aid st
            ({ r.1 with isFirstLoad := false }, Request.listSessions :: r.2)
          else
            let r := newChat { st with activeSessionPointer := none }
            ({ r.1 with isFirstLoad := false }, Request.listSessions :: r.2)
      | none =>
        let r := newChat st
        ({ r.1 with isFirstLoad := false }, Request.listSessions :: r.2)
    else (st, [Request.listSessions])

/-- The confirmed-delete handler (`confirmDeleteBtn.onclick`): issue the
DELETE; on success, deleting the active session behaves as `newChat`,
otherwise only the session list is refreshed; failures and non-2xx
responses change nothing. -/
def confirmDelete (outcome : Except Unit Bool) (sessionToDelete : Option String)
    (st : ClientState) : ClientState × List Request :=
  match sessionToDelete with
  | none => (st, [])
  | some sid =>
    let reqs := [Request.deleteSession sid]
    match outcome with
    | .error _ => (st, reqs)
    | .ok false => (st, reqs)
    | .ok true =>
      if st.currentSessionId = some sid then
        let r := newChat { st with currentSessionId := none }
        (r.1, reqs ++ r.2)
      else (st, reqs ++ [Request.listSessions])

/-- `renameSession` from the source: a cancelled prompt, an empty title or
an unchanged title is a no-op; otherwise the PUT is issued and on success
the session list is refreshed.  The client state itself is never
modified. -/
def renameSession (promptResult : Option String) (outcome : Except Unit Bool)
    (sessionId : String) (currentTitle : Option String) (st : ClientState) :
    ClientState × List Request :=
  match promptResult with
  | none => (st, [])
  | some newTitle =>
    if newTitle = "" ∨ some newTitle = currentTitle then (st, [])
    else
      match outcome with
      | .error _ => (st, [Request.renameSession sessionId newTitle])
      | .ok true => (st, [Request.renameSession sessionId newTitle, Request.listSessions])
      | .ok false => (st, [Request.renameSession sessionId newTitle])

/-- The local history as it stands at the reconciliation point of a
successful send: original history, the optimistic user entry, and the
derived assistant entry when its trimmed text is nonempty. -/
def localHistoryAfterSend (st : ClientState) (d : RespData) : List HistEntry :=
  (st.chatStateHistory ++ [HistEntry.str ("User: " ++ jsTrim st.messageInput)]) ++
  (if derivedAssistantText d = "" then []
   else [HistEntry.str ("Assistant: " ++ derivedAssistantText d)])

/-- Number of session-creation requests in a trace. -/
def countCreate (reqs : List Request) : Nat :=
  reqs.count Request.createSession

/-- Spec-side restatement of the derived assistant text, written from the
words of the specification: tutorial replies derive `content + " " + summary`
(trimmed); clarify replies derive `clarified_step.clarified`, falling back
to `content`; every other type derives `content`. -/
def derivedTextSpec (d : RespData) : String :=
  if d.type = some "tutorial" then jsTrim ((d.content.getD "") ++ " " ++ (d.summary.getD ""))
  else if d.type = some "tutorial_clarify" then
    jsTrim (match d.clarified_step with
            | some cs => cs.clarified.getD ""
            | none => d.content.getD "")
  else jsTrim (d.content.getD "")

/-- Packaged result of a fully successful `sendAttempt` starting from the
post-ensure state `st1` with creation trace `reqs1`. -/
def sendOkResult (message : String) (data : ChatResponse) (dmsg : DisplayedMsg)
    (st1 : ClientState) (reqs1 : List Request) : ClientState × List Request :=
  let newHist := reconcileWithServer
      (st1.chatStateHistory ++
        (if derivedAssistantText data.rdata = "" then []
         else [HistEntry.str ("Assistant: " ++ derivedAssistantText data.rdata)]))
      data.conversation_history
  ({ st1 with displayed := st1.displayed ++ [dmsg],
              lastTutorialSteps := updateTutorialCache data.rdata st1.lastTutorialSteps,
              chatStateHistory := newHist },
   (reqs1 ++ [Request.chat message st1.currentSessionId st1.lastTutorialSteps]) ++
     (if newHist.length ≤ 2 then [Request.listSessions] else []))

/-- Sample tutorial step. -/
def stepA : TutorialStep := ⟨1, "Open settings", none⟩

/-- Sample tutorial step. -/
def stepB : TutorialStep := ⟨2, "Click save", none⟩

/-- A quiescent client state with no active session. -/
def baseState : ClientState :=
  { currentSessionId := none, activeSessionPointer := none, chatStateHistory := [],
    lastTutorialSteps := [], messageInput := "", displayed := [], isFirstLoad := false }

/-- A client state with an active session and a pending input. -/
def stActive : ClientState :=
  { baseState with currentSessionId := some "sess1",
                   activeSessionPointer := some "sess1", messageInput := " hi " }

/-- Sample general chat reply. -/
def dataGeneral : ChatResponse :=
  { rdata := { type := some "general", content := some "hello" } }

/-- Sample general chat reply carrying a three-entry server history. -/
def dataLongHist : ChatResponse :=
  { rdata := { type := some "general", content := some "hello" },
    conversation_history :=
      some [.str "User: hi", .str "Assistant: hello", .str "Assistant: anything else"] }

/-- Sample tutorial reply with two steps (the derived-text example of the
specification). -/
def dataTutorial : ChatResponse :=
  { rdata := { type := some "tutorial", content := some "Here is how",
               summary := some "done", steps := some [stepA, stepB] } }

/-- Sample clarify reply (the derived-text example of the specification). -/
def dataClarify : ChatResponse :=
  { rdata := { type := some "tutorial_clarify", content := some "fallback",
               clarified_step := some ⟨some 1, some "Click the gear icon", none⟩ } }

/-- Send environment delivering the general reply. -/
def envOkGeneral : SendEnv := { createResult := .ok "sess9", chatOutcome := .ok dataGeneral }

/-- Send environment delivering the general reply with a long server history. -/
def envOkLong : SendEnv := { createResult := .ok "sess9", chatOutcome := .ok dataLongHist }

/-- Send environment delivering the tutorial reply. -/
def envOkTutorial : SendEnv := { createResult := .ok "sess9", chatOutcome := .ok dataTutorial }

/-- Send environment delivering the clarify reply. -/
def envOkClarify : SendEnv := { createResult := .ok "sess9", chatOutcome := .ok dataClarify }

/-- Send environment whose chat fetch rejects. -/
def envNetErr : SendEnv := { createResult := .ok "sess9", chatOutcome := .netErr }

/-- Sample backend session list. -/
def sessionsW : List Session := [⟨"sess1", some "First chat"⟩, ⟨"sess2", none⟩]

/-- Load environment for the restoration examples. -/
def fetchEnvW : FetchEnv :=
  { listResult := .ok (some sessionsW), selectEnv := .ok (some [.str "User: hi"]) }

/-- A first-load state holding a pointer to `sess1`. -/
def stRestore : ClientState :=
  { baseState with activeSessionPointer := some "sess1", isFirstLoad := true }

/-- A session-less state whose tutorial cache is nonempty. -/
def stCacheNoSession : ClientState :=
  { baseState with lastTutorialSteps := [stepA], messageInput := "hi" }

/-- A session-less state with empty history and a pending input. -/
def stNoSessEmpty : ClientState :=
  { baseState with messageInput := "hi" }

theorem ensureSessionStep_frame (res : Except Unit String) (st : ClientState)
    (sid : String) (hc : res = .ok sid) :
    ∃ st1 reqs1, ensureSessionStep res st = .ok (st1, reqs1) ∧
      st1.chatStateHistory = st.chatStateHistory ∧
      st1.lastTutorialSteps = st.lastTutorialSteps ∧
      st1.displayed = st.displayed ∧
      st1.messageInput = st.messageInput ∧
      countCreate reqs1 ≤ 1 ∧ Request.listSessions ∉ reqs1 := by
  by_cases ht : truthy st.currentSessionId
  · exact ⟨st, [], by simp [ensureSessionStep, ht], rfl, rfl, rfl, rfl, by simp [countCreate], by simp⟩
  · refine ⟨{ st with currentSessionId := some sid, activeSessionPointer := some sid },
      [Request.createSession], ?_, rfl, rfl, rfl, rfl, by simp [countCreate], by simp⟩
    simp [ensureSessionStep, ht, hc]

theorem sendAttempt_ok_eq (env : SendEnv) (message : String) (st st1 : ClientState)
    (reqs1 : List Request) (data : ChatResponse) (dmsg : DisplayedMsg)
    (hok : env.chatOutcome = ChatOutcome.ok data)
    (hr : renderAssistant data.rdata = .ok dmsg)
    (he : ensureSessionStep env.createResult st = .ok (st1, reqs1)) :
    sendAttempt env message st = .ok (sendOkResult message data dmsg st1 reqs1) := by
  simp only [sendAttempt, he, hok, hr]
  by_cases ha : derivedAssistantText data.rdata = ""
  · simp only [sendOkResult, ha, if_pos, ite_true, List.append_nil]
    by_cases hl : (reconcileWithServer st1.chatStateHistory data.conversation_history).length ≤ 2 <;>
      simp [hl]
  · simp only [sendOkResult, ha, ite_false]
    by_cases hl : (reconcileWithServer
        (st1.chatStateHistory ++ [HistEntry.str ("Assistant: " ++ derivedAssistantText data.rdata)])
        data.conversation_history).length ≤ 2 <;>
      simp [hl]

theorem sendMessage_ok_eq (env : SendEnv) (st st1 : ClientState)
    (reqs1 : List Request) (data : ChatResponse) (dmsg : DisplayedMsg)
    (hm : ¬ jsTrim st.messageInput = "")
    (hok : env.chatOutcome = ChatOutcome.ok data)
    (hr : renderAssistant data.rdata = .ok dmsg)
    (he : ensureSessionStep env.createResult (optimisticAppend (jsTrim st.messageInput) st) = .ok (st1, reqs1)) :
    sendMessage env st = sendOkResult (jsTrim st.messageInput) data dmsg st1 reqs1 := by
  unfold sendMessage
  rw [if_neg hm, sendAttempt_ok_eq env (jsTrim st.messageInput) _ st1 reqs1 data dmsg hok hr he]

theorem sendAttempt_chatfail_eq (env : SendEnv) (message : String) (st st1 : ClientState)
    (reqs1 : List Request)
    (he : ensureSessionStep env.createResult st = .ok (st1, reqs1))
    (herr : env.chatOutcome.isOkRes = false) :
    sendAttempt env message st =
      .error (st1, reqs1 ++ [Request.chat message st1.currentSessionId st1.lastTutorialSteps]) := by
  cases hco : env.chatOutcome with
  | ok data => rw [hco] at herr; simp [ChatOutcome.isOkRes] at herr
  | netErr => simp [sendAttempt, he, hco]
  | httpErr s => simp [sendAttempt, he, hco]
  | badJson => simp [sendAttempt, he, hco]

theorem sendAttempt_renderfail_eq (env : SendEnv) (message : String) (st st1 : ClientState)
    (reqs1 : List Request) (data : ChatResponse) (stub : DisplayedMsg)
    (he : ensureSessionStep env.createResult st = .ok (st1, reqs1))
    (hok : env.chatOutcome = ChatOutcome.ok data)
    (hrf : renderAssistant data.rdata = .error stub) :
    sendAttempt env message st =
      .error ({ st1 with displayed := st1.displayed ++ [stub] },
        reqs1 ++ [Request.chat message st1.currentSessionId st1.lastTutorialSteps]) := by
  simp [sendAttempt, he, hok, hrf]

theorem sendAttempt_createfail_eq (env : SendEnv) (message : String) (st : ClientState)
    (ht : truthy st.currentSessionId = false)
    (hc : env.createResult = .error ()) :
    sendAttempt env message st = .error (st, [Request.createSession]) := by
  simp [sendAttempt, ensureSessionStep, ht, hc]

theorem optimisticAppend_currentSessionId (m : String) (st : ClientState) :
    (optimisticAppend m st).currentSessionId = st.currentSessionId := rfl

theorem optimisticAppend_lastTutorialSteps (m : String) (st : ClientState) :
    (optimisticAppend m st).lastTutorialSteps = st.lastTutorialSteps := rfl

theorem optimisticAppend_chatStateHistory (m : String) (st : ClientState) :
    (optimisticAppend m st).chatStateHistory =
      st.chatStateHistory ++ [HistEntry.str ("User: " ++ m)] := rfl

theorem optimisticAppend_displayed (m : String) (st : ClientState) :
    (optimisticAppend m st).displayed = st.displayed ++ [userDisplayed m] := rfl

theorem sendMessage_history_eq (env : SendEnv) (st : ClientState)
    (data : ChatResponse) (dmsg : DisplayedMsg) (sid : String)
    (hm : ¬ jsTrim st.messageInput = "")
    (hok : env.chatOutcome = ChatOutcome.ok data)
    (hr : renderAssistant data.rdata = Except.ok dmsg)
    (hc : env.createResult = Except.ok sid) :
    (sendMessage env st).1.chatStateHistory =
      reconcileWithServer (localHistoryAfterSend st data.rdata) data.conversation_history := by
  obtain ⟨st1, reqs1, he, hch, hlt, hdp, hmi, hcc, hnl⟩ :=
    ensureSessionStep_frame env.createResult (optimisticAppend (jsTrim st.messageInput) st) sid hc
  rw [sendMessage_ok_eq env st st1 reqs1 data dmsg hm hok hr he]
  have hloc : st1.chatStateHistory ++
      (if derivedAssistantText data.rdata = "" then []
       else [HistEntry.str ("Assistant: " ++ derivedAssistantText data.rdata)]) =
      localHistoryAfterSend st data.rdata := by
    rw [hch, optimisticAppend_chatStateHistory, localHistoryAfterSend]
  simp only [sendOkResult, hloc]

theorem sendMessage_cache_eq (env : SendEnv) (st : ClientState)
    (data : ChatResponse) (dmsg : DisplayedMsg) (sid : String)
    (hm : ¬ jsTrim st.messageInput = "")
    (hok : env.chatOutcome = ChatOutcome.ok data)
    (hr : renderAssistant data.rdata = Except.ok dmsg)
    (hc : env.createResult = Except.ok sid) :
    (sendMessage env st).1.lastTutorialSteps =
      updateTutorialCache data.rdata st.lastTutorialSteps := by
  obtain ⟨st1, reqs1, he, hch, hlt, hdp, hmi, hcc, hnl⟩ :=
    ensureSessionStep_frame env.createResult (optimisticAppend (jsTrim st.messageInput) st) sid hc
  rw [sendMessage_ok_eq env st st1 reqs1 data dmsg hm hok hr he]
  simp only [sendOkResult]
  rw [hlt, optimisticAppend_lastTutorialSteps]

/-- C1: reconciliation monotonicity.  After a successful chat round-trip,
a returned `conversation_history` array whose length is at least the local
length (at the reconciliation point) replaces the local history element
for element and in order; a strictly shorter array, or an absent array,
leaves the local history unchanged. -/
theorem send_reconciliation_monotone (env : SendEnv) (st : ClientState)
    (data : ChatResponse) (dmsg : DisplayedMsg) (sid : String)
    (hm : ¬ jsTrim st.messageInput = "")
    (hok : env.chatOutcome = ChatOutcome.ok data)
    (hr : renderAssistant data.rdata = Except.ok dmsg)
    (hc : env.createResult = Except.ok sid) :
    (∀ h, data.conversation_history = some h →
      ((localHistoryAfterSend st data.rdata).length ≤ h.length →
        (sendMessage env st).1.chatStateHistory = h) ∧
      (h.length < (localHistoryAfterSend st data.rdata).length →
        (sendMessage env st).1.chatStateHistory = localHistoryAfterSend st data.rdata)) ∧
    (data.conversation_history = none →
      (sendMessage env st).1.chatStateHistory = localHistoryAfterSend st data.rdata) := by
  rw [sendMessage_history_eq env st data dmsg sid hm hok hr hc]
  refine ⟨fun h hsome => ⟨fun hle => ?_, fun hgt => ?_⟩, fun hnone => ?_⟩
  · rw [hsome]; simp only [reconcileWithServer]; rw [if_pos hle]
  · rw [hsome]; simp only [reconcileWithServer]; rw [if_neg (by omega)]
  · rw [hnone]; rfl

/-- C1 witness: concrete successful send where the server returns a
three-entry history against a two-entry local history; the local history
is replaced by the server version. -/
theorem send_reconciliation_monotone_witness :
    (sendMessage envOkLong stActive).1.chatStateHistory =
      [HistEntry.str "User: hi", HistEntry.str "Assistant: hello",
       HistEntry.str "Assistant: anything else"] :=
  ((send_reconciliation_monotone envOkLong stActive dataLongHist
      ((renderAssistant dataLongHist.rdata).toOption.getD ⟨false, "", ""⟩) "sess9"
      (by decide) rfl rfl rfl).1 _ rfl).1 (by decide)

/-- C2: derived text selection.  The assistant text appended to local
history follows the specification formula (`derivedTextSpec`): tutorial
replies derive content plus summary (trimmed), clarify replies derive the
clarified text falling back to content, all other types derive content;
empty derived text contributes no history entry.  The second conjunct
exhibits the exact entries appended by a successful send before
reconciliation. -/
theorem send_derived_text_selection (env : SendEnv) (st : ClientState)
    (data : ChatResponse) (dmsg : DisplayedMsg) (sid : String)
    (hm : ¬ jsTrim st.messageInput = "")
    (hok : env.chatOutcome = ChatOutcome.ok data)
    (hr : renderAssistant data.rdata = Except.ok dmsg)
    (hc : env.createResult = Except.ok sid) :
    (∀ d : RespData, derivedAssistantText d = derivedTextSpec d) ∧
    (sendMessage env st).1.chatStateHistory =
      reconcileWithServer
        ((st.chatStateHistory ++ [HistEntry.str ("User: " ++ jsTrim st.messageInput)]) ++
          (if derivedTextSpec data.rdata = "" then []
           else [HistEntry.str ("Assistant: " ++ derivedTextSpec data.rdata)]))
        data.conversation_history := by
  have hspec : ∀ d : RespData, derivedAssistantText d = derivedTextSpec d := by
    intro d
    unfold derivedAssistantText derivedTextSpec
    split_ifs <;> rfl
  refine ⟨hspec, ?_⟩
  rw [sendMessage_history_eq env st data dmsg sid hm hok hr hc]
  rw [localHistoryAfterSend, hspec data.rdata]

/-- C2 witness: the tutorial example of the specification; content
"Here is how" with summary "done" appends the history entry
"Assistant: Here is how done". -/
theorem send_derived_text_selection_witness :
    (sendMessage envOkTutorial stActive).1.chatStateHistory =
      [HistEntry.str "User: hi", HistEntry.str "Assistant: Here is how done"] :=
  Eq.trans
    ((send_derived_text_selection envOkTutorial stActive dataTutorial
        ((renderAssistant dataTutorial.rdata).toOption.getD ⟨false, "", ""⟩) "sess9"
        (by decide) rfl rfl rfl).2)
    (by decide)

/-- C3: tutorial context stability.  The tutorial step cache is overwritten
(with the steps array of the reply) only when the reply type is `tutorial`
and its `steps` field is an array; for `tutorial_clarify` and every other
type the cache is untouched; and after a tutorial reply with steps `l`
followed by a clarify reply, the cache still holds `l`. -/
theorem tutorial_cache_stability (env env2 : SendEnv) (st : ClientState)
    (data data2 : ChatResponse) (dmsg dmsg2 : DisplayedMsg) (sid sid2 m2 : String)
    (hm : ¬ jsTrim st.messageInput = "")
    (hok : env.chatOutcome = ChatOutcome.ok data)
    (hr : renderAssistant data.rdata = Except.ok dmsg)
    (hc : env.createResult = Except.ok sid) :
    (sendMessage env st).1.lastTutorialSteps =
      updateTutorialCache data.rdata st.lastTutorialSteps ∧
    (∀ l, data.rdata.type = some "tutorial" → data.rdata.steps = some l →
      (sendMessage env st).1.lastTutorialSteps = l) ∧
    (data.rdata.type ≠ some "tutorial" ∨ data.rdata.steps = none →
      (sendMessage env st).1.lastTutorialSteps = st.lastTutorialSteps) ∧
    (∀ l, data.rdata.type = some "tutorial" → data.rdata.steps = some l →
      env2.chatOutcome = ChatOutcome.ok data2 →
      renderAssistant data2.rdata = Except.ok dmsg2 →
      env2.createResult = Except.ok sid2 →
      data2.rdata.type = some "tutorial_clarify" →
      ¬ jsTrim m2 = "" →
      (sendMessage env2 { (sendMessage env st).1 with messageInput := m2 }).1.lastTutorialSteps = l) := by
  have hmain := sendMessage_cache_eq env st data dmsg sid hm hok hr hc
  have hup : ∀ l, data.rdata.type = some "tutorial" → data.rdata.steps = some l →
      updateTutorialCache data.rdata st.lastTutorialSteps = l := by
    intro l htype hsteps
    rw [updateTutorialCache, if_pos ⟨htype, by rw [hsteps]; rfl⟩, hsteps]
    rfl
  have hkeep : data.rdata.type ≠ some "tutorial" ∨ data.rdata.steps = none →
      updateTutorialCache data.rdata st.lastTutorialSteps = st.lastTutorialSteps := by
    intro hd
    rw [updateTutorialCache, if_neg]
    rintro ⟨h1, h2⟩
    rcases hd with hd | hd
    · exact hd h1
    · rw [hd] at h2; exact Bool.noConfusion h2
  refine ⟨hmain, fun l htype hsteps => by rw [hmain, hup l htype hsteps],
    fun hd => by rw [hmain, hkeep hd], ?_⟩
  intro l htype hsteps hok2 hr2 hc2 htype2 hm2
  have hmain2 := sendMessage_cache_eq env2 { (sendMessage env st).1 with messageInput := m2 }
    data2 dmsg2 sid2 hm2 hok2 hr2 hc2
  rw [hmain2]
  have hne : data2.rdata.type ≠ some "tutorial" := by
    rw [htype2]; intro hcon; exact absurd (Option.some.inj hcon) (by decide)
  rw [updateTutorialCache, if_neg (fun hcon => hne hcon.1)]
  show (sendMessage env st).1.lastTutorialSteps = l
  rw [hmain, hup l htype hsteps]

/-- C3 witness: a tutorial reply installing two steps followed by a
clarify reply; the cache still holds the two original steps. -/
theorem tutorial_cache_stability_witness :
    (sendMessage envOkClarify
      { (sendMessage envOkTutorial stActive).1 with messageInput := "clarify step 1" }).1.lastTutorialSteps =
      [stepA, stepB] :=
  (tutorial_cache_stability envOkTutorial envOkClarify stActive dataTutorial dataClarify
      ((renderAssistant dataTutorial.rdata).toOption.getD ⟨false, "", ""⟩)
      ((renderAssistant dataClarify.rdata).toOption.getD ⟨false, "", ""⟩)
      "sess9" "sess9" "clarify step 1"
      (by decide) rfl rfl rfl).2.2.2
    [stepA, stepB] rfl rfl rfl rfl rfl rfl (by decide)

theorem sendMessage_after_ensure (env : SendEnv) (st st1 : ClientState) (reqs1 : List Request)
    (hm : ¬ jsTrim st.messageInput = "")
    (he : ensureSessionStep env.createResult (optimisticAppend (jsTrim st.messageInput) st) = .ok (st1, reqs1)) :
    (sendMessage env st).1.currentSessionId = st1.currentSessionId ∧
    (sendMessage env st).1.activeSessionPointer = st1.activeSessionPointer ∧
    ∃ tail, (sendMessage env st).2 =
      (reqs1 ++ [Request.chat (jsTrim st.messageInput) st1.currentSessionId st1.lastTutorialSteps]) ++ tail ∧
      ∀ r ∈ tail, r = Request.listSessions := by
  cases hco : env.chatOutcome with
  | ok data =>
    cases hren : renderAssistant data.rdata with
    | ok dmsg =>
      rw [sendMessage_ok_eq env st st1 reqs1 data dmsg hm hco hren he]
      simp only [sendOkResult]
      refine ⟨by simp, by simp, ?_⟩
      by_cases hl : (reconcileWithServer
          (st1.chatStateHistory ++
            (if derivedAssistantText data.rdata = "" then []
             else [HistEntry.str ("Assistant: " ++ derivedAssistantText data.rdata)]))
          data.conversation_history).length ≤ 2
      · exact ⟨[Request.listSessions], by rw [if_pos hl], by simp⟩
      · exact ⟨[], by rw [if_neg hl], by simp⟩
    | error stub =>
      unfold sendMessage
      rw [if_neg hm, sendAttempt_renderfail_eq env (jsTrim st.messageInput) _ st1 reqs1 data stub he hco hren]
      refine ⟨rfl, rfl, [], by simp, by simp⟩
  | netErr =>
    unfold sendMessage
    rw [if_neg hm, sendAttempt_chatfail_eq env (jsTrim st.messageInput) _ st1 reqs1 he (by simp [hco, ChatOutcome.isOkRes])]
    refine ⟨rfl, rfl, [], by simp, by simp⟩
  | httpErr s =>
    unfold sendMessage
    rw [if_neg hm, sendAttempt_chatfail_eq env (jsTrim st.messageInput) _ st1 reqs1 he (by simp [hco, ChatOutcome.isOkRes])]
    refine ⟨rfl, rfl, [], by simp, by simp⟩
  | badJson =>
    unfold sendMessage
    rw [if_neg hm, sendAttempt_chatfail_eq env (jsTrim st.messageInput) _ st1 reqs1 he (by simp [hco, ChatOutcome.isOkRes])]
    refine ⟨rfl, rfl, [], by simp, by simp⟩

/-- C4: lazy session creation exactly-once.  A send with no active session
issues exactly one `POST /sessions`, immediately before the chat request;
the created id becomes the active id and is persisted to the per-tab
store; a second consecutive send issues no creation request and its chat
request carries the same id. -/
theorem lazy_session_creation_once (env1 env2 : SendEnv) (st : ClientState) (sid m2 : String)
    (hm1 : ¬ jsTrim st.messageInput = "")
    (ht : truthy st.currentSessionId = false)
    (hc1 : env1.createResult = Except.ok sid)
    (hsid : sid ≠ "")
    (hm2 : ¬ jsTrim m2 = "") :
    countCreate (sendMessage env1 st).2 = 1 ∧
    (sendMessage env1 st).2.take 2 =
      [Request.createSession,
       Request.chat (jsTrim st.messageInput) (some sid) st.lastTutorialSteps] ∧
    (sendMessage env1 st).1.currentSessionId = some sid ∧
    (sendMessage env1 st).1.activeSessionPointer = some sid ∧
    countCreate (sendMessage env2 { (sendMessage env1 st).1 with messageInput := m2 }).2 = 0 ∧
    (sendMessage env2 { (sendMessage env1 st).1 with messageInput := m2 }).2.take 1 =
      [Request.chat (jsTrim m2) (some sid) (sendMessage env1 st).1.lastTutorialSteps] := by
  have htb : truthy (optimisticAppend (jsTrim st.messageInput) st).currentSessionId = false := by
    rw [optimisticAppend_currentSessionId]; exact ht
  have he1 : ensureSessionStep env1.createResult (optimisticAppend (jsTrim st.messageInput) st) =
      .ok ({ optimisticAppend (jsTrim st.messageInput) st with
               currentSessionId := some sid, activeSessionPointer := some sid },
           [Request.createSession]) := by
    simp [ensureSessionStep, htb, hc1]
  obtain ⟨hid1, hpt1, tail1, htr1, htl1⟩ := sendMessage_after_ensure env1 st _ _ hm1 he1
  have hcount1 : countCreate (sendMessage env1 st).2 = 1 := by
    rw [htr1, countCreate, List.count_append, List.count_append]
    have h0 : tail1.count Request.createSession = 0 := by
      rw [List.count_eq_zero]
      intro hmem
      exact absurd (htl1 _ hmem) (by decide)
    rw [h0]
    simp [beq_iff_eq]
  have htake1 : (sendMessage env1 st).2.take 2 =
      [Request.createSession,
       Request.chat (jsTrim st.messageInput) (some sid) st.lastTutorialSteps] := by
    rw [htr1, List.take_append_of_le_length (by simp)]
    simp [optimisticAppend_lastTutorialSteps]
  have hid1s : (sendMessage env1 st).1.currentSessionId = some sid := hid1
  have hpt1s : (sendMessage env1 st).1.activeSessionPointer = some sid := hpt1
  set st2 : ClientState := { (sendMessage env1 st).1 with messageInput := m2 } with hst2
  have hid2 : st2.currentSessionId = some sid := hid1s
  have he2 : ensureSessionStep env2.createResult (optimisticAppend (jsTrim st2.messageInput) st2) =
      .ok (optimisticAppend (jsTrim st2.messageInput) st2, []) := by
    have : truthy (optimisticAppend (jsTrim st2.messageInput) st2).currentSessionId = true := by
      rw [optimisticAppend_currentSessionId, hid2]
      simp [truthy, hsid]
    simp [ensureSessionStep, this]
  have hm2s : ¬ jsTrim st2.messageInput = "" := hm2
  obtain ⟨hid2r, hpt2r, tail2, htr2, htl2⟩ := sendMessage_after_ensure env2 st2 _ _ hm2s he2
  have hcount2 : countCreate (sendMessage env2 st2).2 = 0 := by
    rw [htr2, countCreate, List.count_append, List.count_append]
    have h0 : tail2.count Request.createSession = 0 := by
      rw [List.count_eq_zero]
      intro hmem
      exact absurd (htl2 _ hmem) (by decide)
    rw [h0]
    simp [beq_iff_eq]
  have htake2 : (sendMessage env2 st2).2.take 1 =
      [Request.chat (jsTrim m2) (some sid) (sendMessage env1 st).1.lastTutorialSteps] := by
    rw [htr2, List.take_append_of_le_length (by simp)]
    rw [optimisticAppend_currentSessionId, optimisticAppend_lastTutorialSteps, hid2]
    simp [hst2]
  exact ⟨hcount1, htake1, hid1s, hpt1s, hcount2, htake2⟩

/-- C4 witness: a session-less state sends twice; the first send creates
one session and the second creates none. -/
theorem lazy_session_creation_once_witness :
    countCreate (sendMessage envOkGeneral stNoSessEmpty).2 = 1 ∧
    countCreate (sendMessage envOkGeneral
      { (sendMessage envOkGeneral stNoSessEmpty).1 with messageInput := "again" }).2 = 0 :=
  ⟨(lazy_session_creation_once envOkGeneral envOkGeneral stNoSessEmpty "sess9" "again"
      (by decide) (by decide) rfl (by decide) (by decide)).1,
   (lazy_session_creation_once envOkGeneral envOkGeneral stNoSessEmpty "sess9" "again"
      (by decide) (by decide) rfl (by decide) (by decide)).2.2.2.2.1⟩

/-- C7: send-error atomicity.  When the chat round-trip fails (rejected
fetch, non-2xx status, or a body that fails to parse), the failure is
caught at the send boundary and surfaced as the single generic assistant
bubble; the local history keeps exactly the already-appended optimistic
user entry, no assistant text is appended, no reconciliation occurs, and
the tutorial cache is untouched. -/
theorem send_error_atomicity (env : SendEnv) (st : ClientState)
    (hm : ¬ jsTrim st.messageInput = "")
    (herr : env.chatOutcome.isOkRes = false) :
    (sendMessage env st).1.chatStateHistory =
      st.chatStateHistory ++ [HistEntry.str ("User: " ++ jsTrim st.messageInput)] ∧
    (sendMessage env st).1.displayed =
      st.displayed ++ [userDisplayed (jsTrim st.messageInput), errorDisplayed] ∧
    (sendMessage env st).1.lastTutorialSteps = st.lastTutorialSteps := by
  by_cases ht : truthy st.currentSessionId = true
  · have he : ensureSessionStep env.createResult (optimisticAppend (jsTrim st.messageInput) st) =
        .ok (optimisticAppend (jsTrim st.messageInput) st, []) := by
      simp [ensureSessionStep, optimisticAppend, ht]
    unfold sendMessage
    rw [if_neg hm, sendAttempt_chatfail_eq env (jsTrim st.messageInput) _ _ [] he herr]
    refine ⟨rfl, ?_, rfl⟩
    rw [show ({ (optimisticAppend (jsTrim st.messageInput) st) with
        displayed := (optimisticAppend (jsTrim st.messageInput) st).displayed ++ [errorDisplayed] } :
        ClientState).displayed =
      (optimisticAppend (jsTrim st.messageInput) st).displayed ++ [errorDisplayed] from rfl]
    rw [optimisticAppend_displayed]
    simp
  · have htf : truthy st.currentSessionId = false := by
      simpa using ht
    have htb : truthy (optimisticAppend (jsTrim st.messageInput) st).currentSessionId = false := by
      rw [optimisticAppend_currentSessionId]; exact htf
    cases hcr : env.createResult with
    | ok sid =>
      have he : ensureSessionStep env.createResult (optimisticAppend (jsTrim st.messageInput) st) =
          .ok ({ optimisticAppend (jsTrim st.messageInput) st with
                   currentSessionId := some sid, activeSessionPointer := some sid },
               [Request.createSession]) := by
        simp [ensureSessionStep, htb, hcr]
      unfold sendMessage
      rw [if_neg hm, sendAttempt_chatfail_eq env (jsTrim st.messageInput) _ _ _ he herr]
      refine ⟨rfl, ?_, rfl⟩
      show (optimisticAppend (jsTrim st.messageInput) st).displayed ++ [errorDisplayed] =
        st.displayed ++ [userDisplayed (jsTrim st.messageInput), errorDisplayed]
      rw [optimisticAppend_displayed]
      simp
    | error e =>
      cases e
      unfold sendMessage
      rw [if_neg hm, sendAttempt_createfail_eq env (jsTrim st.messageInput) _ htb hcr]
      refine ⟨rfl, ?_, rfl⟩
      show (optimisticAppend (jsTrim st.messageInput) st).displayed ++ [errorDisplayed] =
        st.displayed ++ [userDisplayed (jsTrim st.messageInput), errorDisplayed]
      rw [optimisticAppend_displayed]
      simp

/-- C7 witness: a rejected chat fetch on an active session leaves only the
optimistic user entry in the local history and shows the generic error
bubble. -/
theorem send_error_atomicity_witness :
    (sendMessage envNetErr stActive).1.chatStateHistory = [HistEntry.str "User: hi"] ∧
    (sendMessage envNetErr stActive).1.displayed =
      [userDisplayed "hi", errorDisplayed] :=
  ⟨Eq.trans (send_error_atomicity envNetErr stActive (by decide) rfl).1 (by decide),
   Eq.trans (send_error_atomicity envNetErr stActive (by decide) rfl).2.1 (by decide)⟩

/-- C10: empty-input send is a no-op.  When the trimmed input is empty,
`sendMessage` changes nothing at all (history, session id, per-tab
pointer, tutorial cache, input field, pane) and issues no request. -/
theorem empty_send_noop (env : SendEnv) (st : ClientState)
    (hm : jsTrim st.messageInput = "") :
    sendMessage env st = (st, []) := by
  unfold sendMessage
  rw [if_pos hm]

/-- C10 witness: a whitespace-only input leaves the state untouched and
issues no request. -/
theorem empty_send_noop_witness :
    sendMessage envOkGeneral { baseState with messageInput := "   " } =
      ({ baseState with messageInput := "   " }, []) :=
  empty_send_noop envOkGeneral { baseState with messageInput := "   " } (by decide)

/-- C5: restore on load.  On initialization with an absent per-tab
pointer, the client enters landing state; with a pointer whose id is
missing from the backend list, the pointer is cleared and the client falls
back to landing state; with a pointer whose id is found, the session is
selected, and the resulting conversation state equals that of an explicit
`selectSession` call with that id. -/
theorem restore_on_load (env : FetchEnv) (st : ClientState) (sessions : List Session)
    (hl : env.listResult = Except.ok (some sessions))
    (hf : st.isFirstLoad = true) :
    (st.activeSessionPointer = none →
      (fetchSessions env st).1.currentSessionId = none ∧
      (fetchSessions env st).1.activeSessionPointer = none ∧
      (fetchSessions env st).1.chatStateHistory = [] ∧
      (fetchSessions env st).1.lastTutorialSteps = []) ∧
    (∀ aid, st.activeSessionPointer = some aid →
      sessions.any (fun s => s.session_id == aid) = false →
      (fetchSessions env st).1.currentSessionId = none ∧
      (fetchSessions env st).1.activeSessionPointer = none ∧
      (fetchSessions env st).1.chatStateHistory = [] ∧
      (fetchSessions env st).1.lastTutorialSteps = []) ∧
    (∀ aid, st.activeSessionPointer = some aid →
      sessions.any (fun s => s.session_id == aid) = true →
      (fetchSessions env st).1.chatStateHistory =
        (selectSession env.selectEnv aid st).1.chatStateHistory ∧
      (fetchSessions env st).1.displayed =
        (selectSession env.selectEnv aid st).1.displayed ∧
      (fetchSessions env st).1.lastTutorialSteps =
        (selectSession env.selectEnv aid st).1.lastTutorialSteps ∧
      (fetchSessions env st).1.currentSessionId =
        (selectSession env.selectEnv aid st).1.currentSessionId) := by
  refine ⟨?_, ?_, ?_⟩
  · intro hp
    simp [fetchSessions, hl, hf, hp, newChat]
  · intro aid hp hany
    simp [fetchSessions, hl, hf, hp, hany, newChat]
  · intro aid hp hany
    simp [fetchSessions, hl, hf, hp, hany]

/-- C5 witness: a stored pointer to an existing session restores the very
conversation state an explicit selection of that session produces. -/
theorem restore_on_load_witness :
    (fetchSessions fetchEnvW stRestore).1.chatStateHistory =
      (selectSession fetchEnvW.selectEnv "sess1" stRestore).1.chatStateHistory :=
  ((restore_on_load fetchEnvW stRestore sessionsW rfl rfl).2.2 "sess1" rfl (by decide)).1

theorem jsStartsWith_append_self (p t : String) : jsStartsWith (p ++ t) p = true := by
  cases p with
  | mk pl =>
    cases t with
    | mk tl =>
      show pl.isPrefixOf (pl ++ tl) = true
      simp [List.isPrefixOf_iff_prefix]

theorem jsReplaceFirst_append_self (p t : String) : jsReplaceFirst (p ++ t) p = t := by
  cases p with
  | mk pl =>
    cases t with
    | mk tl =>
      rw [jsReplaceFirst, if_pos (jsStartsWith_append_self ⟨pl⟩ ⟨tl⟩)]
      show (⟨(pl ++ tl).drop pl.length⟩ : String) = ⟨tl⟩
      rw [List.drop_left]

theorem assistant_str_not_user (t : String) :
    jsStartsWith ("Assistant: " ++ t) "User: " = false := by
  have hd : ("Assistant: " ++ t).data = "Assistant: ".data ++ t.data := by
    cases t with
    | mk l => rfl
  rw [jsStartsWith, hd]
  rw [show "User: ".data = 'U' :: "ser: ".data from rfl,
      show "Assistant: ".data = 'A' :: "ssistant: ".data from rfl]
  rw [List.cons_append]
  simp [List.isPrefixOf]

/-- C6: legacy/structured hydration equivalence.  A legacy string entry
and its structured equivalent hydrate to the same displayed message (shown
both generically and on the example history of the specification), and
unknown or malformed entries are silently skipped. -/
theorem legacy_structured_equivalence :
    (∀ t : String,
      hydrateOne (HistEntry.str ("User: " ++ t)) =
        hydrateOne (HistEntry.obj (some "user") (some t) none)) ∧
    (∀ t : String,
      hydrateOne (HistEntry.str ("Assistant: " ++ t)) =
        hydrateOne (HistEntry.obj (some "assistant") (some t) none)) ∧
    hydrateAll [HistEntry.str "User: hi", HistEntry.obj (some "assistant") (some "hello") none] =
      hydrateAll [HistEntry.obj (some "user") (some "hi") none,
                  HistEntry.obj (some "assistant") (some "hello") none] ∧
    (∀ s : String, jsStartsWith s "User: " = false → jsStartsWith s "Assistant: " = false →
      hydrateOne (HistEntry.str s) = .ok none) ∧
    (∀ role content data, role ≠ some "user" → role ≠ some "assistant" →
      hydrateOne (HistEntry.obj role content data) = .ok none) ∧
    hydrateOne HistEntry.malformed = .ok none := by
  refine ⟨?_, ?_, by decide, ?_, ?_, rfl⟩
  · intro t
    simp [hydrateOne, jsStartsWith_append_self, jsReplaceFirst_append_self]
  · intro t
    simp [hydrateOne, assistant_str_not_user, jsStartsWith_append_self,
      jsReplaceFirst_append_self, renderAssistant, renderComplex,
      renderRegularResponse, renderSuggestedActions, truthy]
  · intro s h1 h2
    simp [hydrateOne, h1, h2]
  · intro role content data h1 h2
    simp [hydrateOne, h1, h2]

/-- C6 witness: a string entry matching neither legacy prefix is skipped
by hydration. -/
theorem legacy_structured_equivalence_witness :
    hydrateOne (HistEntry.str "weird entry") = .ok none :=
  legacy_structured_equivalence.2.2.2.1 "weird entry" (by decide) (by decide)

theorem sendMessage_creates_one (env : SendEnv) (st : ClientState) (sid : String)
    (hm : ¬ jsTrim st.messageInput = "")
    (ht : truthy st.currentSessionId = false)
    (hc : env.createResult = Except.ok sid) :
    countCreate (sendMessage env st).2 = 1 := by
  have htb : truthy (optimisticAppend (jsTrim st.messageInput) st).currentSessionId = false := by
    rw [optimisticAppend_currentSessionId]; exact ht
  have he : ensureSessionStep env.createResult (optimisticAppend (jsTrim st.messageInput) st) =
      .ok ({ optimisticAppend (jsTrim st.messageInput) st with
               currentSessionId := some sid, activeSessionPointer := some sid },
           [Request.createSession]) := by
    simp [ensureSessionStep, htb, hc]
  obtain ⟨_, _, tail, htr, htl⟩ := sendMessage_after_ensure env st _ _ hm he
  rw [htr, countCreate, List.count_append, List.count_append]
  have h0 : tail.count Request.createSession = 0 := by
    rw [List.count_eq_zero]
    intro hmem
    exact absurd (htl _ hmem) (by decide)
  rw [h0]
  simp [beq_iff_eq]

/-- C8 counterexample: a send from a session-less state whose tutorial
cache is nonempty performs the lazy session creation (exactly one
creation request) yet ends with the cache still nonempty, contradicting
the claim that the cache is reset whenever a session is created. -/
theorem tutorial_cache_reset_cex :
    countCreate (sendMessage envOkGeneral stCacheNoSession).2 = 1 ∧
    (sendMessage envOkGeneral stCacheNoSession).1.lastTutorialSteps = [stepA] ∧
    ¬ (sendMessage envOkGeneral stCacheNoSession).1.lastTutorialSteps = [] := by
  decide

/-- C8 amended: the tutorial step cache is reset to empty whenever a
different session is successfully selected and on `newChat`; the lazy
session creation inside the send path does not reset it — across such a
send the cache simply follows the ordinary tutorial update rule applied
to the pre-send cache. -/
theorem tutorial_cache_reset_amended (st : ClientState) :
    (newChat st).1.lastTutorialSteps = [] ∧
    (∀ sid hist, ¬ st.currentSessionId = some sid →
      (selectSession (SelectOutcome.ok hist) sid st).1.lastTutorialSteps = []) ∧
    (∀ env data dmsg sid,
      ¬ jsTrim st.messageInput = "" →
      truthy st.currentSessionId = false →
      env.chatOutcome = ChatOutcome.ok data →
      renderAssistant data.rdata = Except.ok dmsg →
      env.createResult = Except.ok sid →
      countCreate (sendMessage env st).2 = 1 ∧
      (sendMessage env st).1.lastTutorialSteps =
        updateTutorialCache data.rdata st.lastTutorialSteps) := by
  refine ⟨rfl, ?_, ?_⟩
  · intro sid hist hne
    simp [selectSession, hne]
  · intro env data dmsg sid hm ht hok hr hc
    exact ⟨sendMessage_creates_one env st sid hm ht hc,
           sendMessage_cache_eq env st data dmsg sid hm hok hr hc⟩

/-- C8 amended witness: the lazy-creation send of the counterexample state
keeps the pre-send cache, as the amended rule prescribes. -/
theorem tutorial_cache_reset_amended_witness :
    (sendMessage envOkGeneral stCacheNoSession).1.lastTutorialSteps = [stepA] :=
  Eq.trans
    ((tutorial_cache_reset_amended stCacheNoSession).2.2 envOkGeneral dataGeneral
        ((renderAssistant dataGeneral.rdata).toOption.getD ⟨false, "", ""⟩) "sess9"
        (by decide) (by decide) rfl rfl rfl).2
    (by decide)

/-- C9 counterexample: a send from a session-less state that lazily
creates a session but receives a three-entry server history issues no
session-list request at all, contradicting the claim that lazy creation
always triggers a refresh of the displayed session list. -/
theorem session_refresh_cex :
    countCreate (sendMessage envOkLong stNoSessEmpty).2 = 1 ∧
    Request.listSessions ∉ (sendMessage envOkLong stNoSessEmpty).2 := by
  decide

/-- C9 amended: a successful delete and a successful rename always refresh
the displayed session list; after a successful send the list is refreshed
exactly when the reconciled local history has at most two entries (the
first-exchange heuristic of the source), so a lazy creation whose
reconciled history is longer triggers no refresh. -/
theorem session_refresh_amended :
    (∀ env st data dmsg sid,
      ¬ jsTrim st.messageInput = "" →
      env.chatOutcome = ChatOutcome.ok data →
      renderAssistant data.rdata = Except.ok dmsg →
      env.createResult = Except.ok sid →
      (Request.listSessions ∈ (sendMessage env st).2 ↔
        (sendMessage env st).1.chatStateHistory.length ≤ 2)) ∧
    (∀ st sid, Request.listSessions ∈ (confirmDelete (Except.ok true) (some sid) st).2) ∧
    (∀ st sid title ctitle, ¬ (title = "" ∨ some title = ctitle) →
      Request.listSessions ∈ (renameSession (some title) (Except.ok true) sid ctitle st).2) := by
  refine ⟨?_, ?_, ?_⟩
  · intro env st data dmsg sid hm hok hr hc
    obtain ⟨st1, reqs1, he, hch, hlt, hdp, hmi, hcc, hnl⟩ :=
      ensureSessionStep_frame env.createResult (optimisticAppend (jsTrim st.messageInput) st) sid hc
    rw [sendMessage_ok_eq env st st1 reqs1 data dmsg hm hok hr he]
    simp only [sendOkResult]
    by_cases hl : (reconcileWithServer
        (st1.chatStateHistory ++
          (if derivedAssistantText data.rdata = "" then []
           else [HistEntry.str ("Assistant: " ++ derivedAssistantText data.rdata)]))
        data.conversation_history).length ≤ 2
    · rw [if_pos hl]
      simp [hl, List.mem_append]
    · rw [if_neg hl]
      simp only [List.mem_append, List.append_nil]
      constructor
      · rintro (hmem | hmem)
        · exact absurd hmem hnl
        · simp at hmem
      · intro hcon
        exact absurd hcon hl
  · intro st sid
    by_cases hact : st.currentSessionId = some sid
    · simp [confirmDelete, hact, newChat]
    · simp [confirmDelete, hact]
  · intro st sid title ctitle hvalid
    simp [renameSession, hvalid]

/-- C9 amended witness: a successful send whose reconciled history has two
entries refreshes the session list. -/
theorem session_refresh_amended_witness :
    Request.listSessions ∈ (sendMessage envOkGeneral stActive).2 :=
  (session_refresh_amended.1 envOkGeneral stActive dataGeneral
      ((renderAssistant dataGeneral.rdata).toOption.getD ⟨false, "", ""⟩) "sess9"
      (by decide) rfl rfl rfl).mpr (by decide)
